import Mathlib

/-!
Verification of the Outline proxy controller's network monitor
(`tools/outline_proxy_controller/network_monitor.{h,cpp}`).

The development shallowly embeds:

* the `NetworkChangeEvent` bit-flag enumeration (underlying type
  `unsigned int`) together with its `|`, `&` operators and `to_string`;
* the netlink record walk of `NetworkMonitor::WaitForChangeEvent`,
  including the `NLMSG_OK` / `NLMSG_NEXT` macro arithmetic from
  `<linux/netlink.h>` and the outer receive loop.

A datagram delivered by the netlink socket is modelled as the list of
records laid out in the receive buffer together with the byte count
returned by `async_receive`; machine arithmetic on the `size_t`
remaining-length variable is modelled explicitly modulo `2^64`, and the
`__u32` record length modulo `2^32`.
-/

namespace Outline

/-- Underlying value of the `NetworkChangeEvent` enum (`unsigned int`). -/
abbrev NetworkChangeEvent := Nat

/-- `NetworkChangeEvent::kNone = 0b00000000`. -/
def kNone : NetworkChangeEvent := 0b00000000

/-- `NetworkChangeEvent::kNicChanged = 0b00000001`. -/
def kNicChanged : NetworkChangeEvent := 0b00000001

/-- `NetworkChangeEvent::kAddressChanged = 0b00000010`. -/
def kAddressChanged : NetworkChangeEvent := 0b00000010

/-- `NetworkChangeEvent::kRouteChanged = 0b00000100`. -/
def kRouteChanged : NetworkChangeEvent := 0b00000100

/-- The overloaded `operator|` on `NetworkChangeEvent`: bitwise OR of the
underlying values. -/
def evOr (lhs rhs : NetworkChangeEvent) : NetworkChangeEvent :=
  lhs ||| rhs

/-- The overloaded `operator&` on `NetworkChangeEvent`: bitwise AND of the
underlying values. -/
def evAnd (lhs rhs : NetworkChangeEvent) : NetworkChangeEvent :=
  lhs &&& rhs

/-- The `to_string(NetworkChangeEvent)` free function from
`network_monitor.cpp`, translated branch for branch. -/
def to_string (evt : NetworkChangeEvent) : String :=
  if evt = kNone then "None"
  else
    let result : String := ""
    let result := if evAnd evt kNicChanged = kNicChanged then result ++ "NIC" else result
    let result := if evAnd evt kAddressChanged = kAddressChanged then
        result ++ (if result.isEmpty then "IP" else " IP") else result
    let result := if evAnd evt kRouteChanged = kRouteChanged then
        result ++ (if result.isEmpty then "Route" else " Route") else result
    result

/-! Netlink protocol constants, from `<linux/netlink.h>` and
`<linux/rtnetlink.h>`. -/

/-- `NLMSG_ERROR` message type. -/
def NLMSG_ERROR : Nat := 0x2

/-- `NLMSG_DONE` message type. -/
def NLMSG_DONE : Nat := 0x3

/-- `RTM_NEWLINK` message type. -/
def RTM_NEWLINK : Nat := 16

/-- `RTM_NEWADDR` message type. -/
def RTM_NEWADDR : Nat := 20

/-- `RTM_DELADDR` message type. -/
def RTM_DELADDR : Nat := 21

/-- `RTM_NEWROUTE` message type. -/
def RTM_NEWROUTE : Nat := 24

/-- `RTM_DELROUTE` message type. -/
def RTM_DELROUTE : Nat := 25

/-- `sizeof(struct nlmsghdr)`: four 32-bit fields would give 12, but the
header is `len (u32), type (u16), flags (u16), seq (u32), pid (u32)` = 16
bytes, which is already 4-aligned, so `NLMSG_HDRLEN = 16`. -/
def NLMSG_HDRLEN : Nat := 16

/-- `NLMSG_ALIGNTO = 4U`. -/
def NLMSG_ALIGNTO : Nat := 4

/-- `NLMSG_ALIGN(len) = ((len)+NLMSG_ALIGNTO-1) & ~(NLMSG_ALIGNTO-1)` in
`__u32` arithmetic: round up to the next multiple of 4, modulo `2^32`. -/
def NLMSG_ALIGN (len : Nat) : Nat :=
  ((len + NLMSG_ALIGNTO - 1) % 2 ^ 32) / NLMSG_ALIGNTO * NLMSG_ALIGNTO

/-- One netlink record (`struct nlmsghdr` plus payload) as laid out in the
receive buffer.  `nlmsg_len` is the declared total length (`__u32`),
`nlmsg_type` the message type (`__u16`).  For `NLMSG_ERROR` records the
payload starts with a `struct nlmsgerr` whose first field is the embedded
OS error code (`int`), modelled by `errorCode`. -/
structure NlMsg where
  nlmsg_len : Nat
  nlmsg_type : Nat
  errorCode : Int
deriving Repr, DecidableEq

/-- `NLMSG_OK(nlh, len)`: the remaining length covers a header, the
declared record length covers a header, and the declared record length fits
in the remaining length.  `len` is the `size_t` remaining byte count. -/
def NLMSG_OK (msg : NlMsg) (len : Nat) : Prop :=
  NLMSG_HDRLEN ≤ len ∧ NLMSG_HDRLEN ≤ msg.nlmsg_len ∧ msg.nlmsg_len ≤ len

instance (msg : NlMsg) (len : Nat) : Decidable (NLMSG_OK msg len) := by
  unfold NLMSG_OK; infer_instance

/-- The length update of `NLMSG_NEXT(nlh, len)`:
`len -= NLMSG_ALIGN(nlh->nlmsg_len)` in `size_t` arithmetic (mod `2^64`). -/
def nlmsgNextLen (len l : Nat) : Nat :=
  (len + (2 ^ 64 - NLMSG_ALIGN l)) % 2 ^ 64

/-- Result of walking one datagram's records: either the loop left the
accumulator at `acc` (buffer exhausted, bounds check failed, or an
`NLMSG_DONE` record jumped to `EndOfMultiPartMsg`), or an `NLMSG_ERROR`
record threw `std::system_error` carrying the embedded code. -/
inductive WalkOutcome where
  | ok (acc : NetworkChangeEvent)
  | err (code : Int)
deriving Repr, DecidableEq

/-- The inner `for` loop of `NetworkMonitor::WaitForChangeEvent`: iterate
`NLMSG_OK` / `NLMSG_NEXT` over the records of one datagram, dispatching on
`nlmsg_type` exactly as the `switch` statement does. -/
def walkMsgs : List NlMsg → Nat → NetworkChangeEvent → WalkOutcome
  | [], _, acc => .ok acc
  | msg :: rest, len, acc =>
    if NLMSG_OK msg len then
      if msg.nlmsg_type = NLMSG_DONE then
        .ok acc
      else if msg.nlmsg_type = NLMSG_ERROR then
        .err msg.errorCode
      else
        let acc :=
          if msg.nlmsg_type = RTM_NEWLINK then evOr acc kNicChanged
          else if msg.nlmsg_type = RTM_NEWADDR ∨ msg.nlmsg_type = RTM_DELADDR then
            evOr acc kAddressChanged
          else if msg.nlmsg_type = RTM_NEWROUTE ∨ msg.nlmsg_type = RTM_DELROUTE then
            evOr acc kRouteChanged
          else acc
        walkMsgs rest (nlmsgNextLen len msg.nlmsg_len) acc
    else .ok acc

/-- One datagram received from the netlink socket: the records laid out in
the buffer and the byte count `len` returned by `async_receive`. -/
structure Datagram where
  msgs : List NlMsg
  len : Nat
deriving Repr, DecidableEq

/-- Result of one `WaitForChangeEvent` call over a given stream of
datagrams: the coroutine returned flags, threw a `std::system_error`, or is
still suspended waiting for a further receive. -/
inductive WaitResult where
  | success (flags : NetworkChangeEvent)
  | failure (code : Int)
  | pending
deriving Repr, DecidableEq

/-- The `do … while (received_events == kNone)` loop of
`WaitForChangeEvent`, threading the `received_events` accumulator.  Returns
the call's result together with the datagrams left unconsumed on the
socket. -/
def waitLoop : List Datagram → NetworkChangeEvent → WaitResult × List Datagram
  | [], _ => (.pending, [])
  | d :: rest, acc =>
    match walkMsgs d.msgs d.len acc with
    | .err code => (.failure code, rest)
    | .ok acc' => if acc' = kNone then waitLoop rest acc' else (.success acc', rest)

/-- `NetworkMonitor::WaitForChangeEvent` on a stream of datagrams: the
accumulator starts at `kNone` (`auto received_events = NetworkChangeEvent::kNone`). -/
def WaitForChangeEvent (ds : List Datagram) : WaitResult :=
  (waitLoop ds kNone).1

/-! Spec-side definitions, for refinement statements.  These follow the
specification's words (the type-code table of spec §6 and the
OR-accumulation policy of spec §4.3) rather than the C++ control flow, and
are compared with the source embedding in the theorems below. -/

/-- The specification's type-code → Event Flag table: NEW-LINK maps to the
interface-change flag, NEW-ADDR and DEL-ADDR to the address-change flag,
NEW-ROUTE and DEL-ROUTE to the route-change flag, anything else to no
flag. -/
def specEventOfType (t : Nat) : NetworkChangeEvent :=
  if t = RTM_NEWLINK then kNicChanged
  else if t = RTM_NEWADDR ∨ t = RTM_DELADDR then kAddressChanged
  else if t = RTM_NEWROUTE ∨ t = RTM_DELROUTE then kRouteChanged
  else kNone

/-- The per-record flags of the records of one datagram that the walk
dispatches to the accumulator: the walk consumes records while the bounds
check passes, stopping at a `NLMSG_DONE` sentinel; an `NLMSG_ERROR`
record aborts the call, so it contributes no flag. -/
def consumedFlags : List NlMsg → Nat → List NetworkChangeEvent
  | [], _ => []
  | msg :: rest, len =>
    if NLMSG_OK msg len then
      if msg.nlmsg_type = NLMSG_DONE then []
      else if msg.nlmsg_type = NLMSG_ERROR then []
      else specEventOfType msg.nlmsg_type :: consumedFlags rest (nlmsgNextLen len msg.nlmsg_len)
    else []

/-- The per-record flags consumed across the datagrams of one
`WaitForChangeEvent` call: the call keeps receiving while the accumulated
value is still `kNone`. -/
def waitFlags : List Datagram → List NetworkChangeEvent
  | [] => []
  | d :: rest =>
    let fs := consumedFlags d.msgs d.len
    if List.foldl evOr kNone fs = kNone then fs ++ waitFlags rest else fs

/-! Helper lemmas shared by the claim theorems. -/

/-- The cascaded flag-accumulation cases of the `switch` statement agree
with OR-ing in the spec table's flag for the record type. -/
theorem dispatchAcc_eq (t : Nat) (acc : NetworkChangeEvent) :
    (if t = RTM_NEWLINK then evOr acc kNicChanged
     else if t = RTM_NEWADDR ∨ t = RTM_DELADDR then evOr acc kAddressChanged
     else if t = RTM_NEWROUTE ∨ t = RTM_DELROUTE then evOr acc kRouteChanged
     else acc) = evOr acc (specEventOfType t) := by
  unfold specEventOfType
  split_ifs <;> simp [evOr, kNone]

/-- Stepping the walk over one well-formed, non-sentinel, non-error
record OR-s the spec table's flag for that record into the accumulator. -/
theorem walkMsgs_cons_step (msg : NlMsg) (rest : List NlMsg) (len : Nat)
    (acc : NetworkChangeEvent) (hok : NLMSG_OK msg len)
    (hd : msg.nlmsg_type ≠ NLMSG_DONE) (he : msg.nlmsg_type ≠ NLMSG_ERROR) :
    walkMsgs (msg :: rest) len acc =
      walkMsgs rest (nlmsgNextLen len msg.nlmsg_len) (evOr acc (specEventOfType msg.nlmsg_type)) := by
  simp only [walkMsgs, if_pos hok, if_neg hd, if_neg he, dispatchAcc_eq]

/-- When the walk of a datagram returns normally, the final accumulator is
the left OR-fold of the consumed records' flags over the initial
accumulator. -/
theorem walkMsgs_ok_foldl :
    ∀ (msgs : List NlMsg) (len : Nat) (acc r : NetworkChangeEvent),
      walkMsgs msgs len acc = .ok r →
      r = List.foldl evOr acc (consumedFlags msgs len)
  | [], _, acc, r, h => by
    simp only [walkMsgs, WalkOutcome.ok.injEq] at h
    simp [consumedFlags, h]
  | msg :: rest, len, acc, r, h => by
    by_cases hok : NLMSG_OK msg len
    · by_cases hd : msg.nlmsg_type = NLMSG_DONE
      · simp only [walkMsgs, if_pos hok, if_pos hd, WalkOutcome.ok.injEq] at h
        simp [consumedFlags, if_pos hok, hd, h]
      · by_cases he : msg.nlmsg_type = NLMSG_ERROR
        · simp only [walkMsgs, if_pos hok, if_neg hd, if_pos he] at h
          exact WalkOutcome.noConfusion h
        · rw [walkMsgs_cons_step msg rest len acc hok hd he] at h
          have ih := walkMsgs_ok_foldl rest (nlmsgNextLen len msg.nlmsg_len)
            (evOr acc (specEventOfType msg.nlmsg_type)) r h
          simp only [consumedFlags, if_pos hok, if_neg hd, if_neg he, List.foldl_cons]
          exact ih
    · simp only [walkMsgs, if_neg hok, WalkOutcome.ok.injEq] at h
      simp [consumedFlags, if_neg hok, h]

/-- Left OR-folds are invariant under permutation of the folded list. -/
theorem foldl_evOr_perm {l₁ l₂ : List NetworkChangeEvent} (p : l₁.Perm l₂) :
    ∀ a : NetworkChangeEvent, List.foldl evOr a l₁ = List.foldl evOr a l₂ := by
  induction p with
  | nil => intro a; rfl
  | cons x _ ih => intro a; simpa using ih (evOr a x)
  | swap x y l =>
      intro a
      simp only [List.foldl_cons]
      have : evOr (evOr a y) x = evOr (evOr a x) y := by
        simp only [evOr, Nat.or_assoc, Nat.or_comm y x]
      rw [this]
  | trans _ _ ih₁ ih₂ => intro a; exact (ih₁ a).trans (ih₂ a)

/-- A call of the wait loop only returns success with a non-`kNone`
value. -/
theorem waitLoop_success_ne_none :
    ∀ (ds : List Datagram) (acc f : NetworkChangeEvent) (rest : List Datagram),
      waitLoop ds acc = (.success f, rest) → f ≠ kNone
  | [], acc, f, rest, h => by simp [waitLoop] at h
  | d :: ds, acc, f, rest, h => by
    simp only [waitLoop] at h
    cases hw : walkMsgs d.msgs d.len acc with
    | err code => rw [hw] at h; exact absurd (congrArg Prod.fst h) (by simp)
    | ok acc' =>
      rw [hw] at h
      dsimp only at h
      by_cases hz : acc' = kNone
      · rw [if_pos hz] at h
        exact waitLoop_success_ne_none ds acc' f rest h
      · rw [if_neg hz] at h
        have hf : acc' = f := by
          have h1 := congrArg Prod.fst h
          simpa using h1
        exact hf ▸ hz

/-- The wait loop, started from the zero accumulator, returns the OR-fold
of the flags it consumes. -/
theorem waitLoop_success_foldl :
    ∀ (ds : List Datagram) (f : NetworkChangeEvent) (rest : List Datagram),
      waitLoop ds kNone = (.success f, rest) →
      f = List.foldl evOr kNone (waitFlags ds)
  | [], f, rest, h => by simp [waitLoop] at h
  | d :: ds, f, rest, h => by
    simp only [waitLoop] at h
    cases hw : walkMsgs d.msgs d.len kNone with
    | err code => rw [hw] at h; exact absurd (congrArg Prod.fst h) (by simp)
    | ok acc' =>
      rw [hw] at h
      dsimp only at h
      have hfold : acc' = List.foldl evOr kNone (consumedFlags d.msgs d.len) :=
        walkMsgs_ok_foldl d.msgs d.len kNone acc' hw
      by_cases hz : acc' = kNone
      · rw [if_pos hz, hz] at h
        have ih := waitLoop_success_foldl ds f rest h
        have hcond : List.foldl evOr kNone (consumedFlags d.msgs d.len) = kNone := by
          rw [← hfold]; exact hz
        simp only [waitFlags]
        rw [if_pos hcond, List.foldl_append, hcond]
        exact ih
      · rw [if_neg hz] at h
        have hf : acc' = f := by
          have h1 := congrArg Prod.fst h
          simpa using h1
        have hcond : ¬List.foldl evOr kNone (consumedFlags d.msgs d.len) = kNone := by
          rw [← hfold]; exact hz
        simp only [waitFlags]
        rw [if_neg hcond, ← hfold]
        exact hf.symm

/-! Claim theorems. -/

/-- C1: every successful completion of `WaitForChangeEvent` returns a
non-zero Event Flags value — when a receive cycle leaves the accumulator
at `kNone`, the `do … while` loop performs another receive instead of
returning. -/
theorem wait_success_nonzero (ds : List Datagram) (f : NetworkChangeEvent)
    (h : WaitForChangeEvent ds = .success f) : f ≠ kNone := by
  unfold WaitForChangeEvent at h
  cases hp : waitLoop ds kNone with
  | mk r rest =>
    rw [hp] at h
    dsimp only at h
    rw [h] at hp
    exact waitLoop_success_ne_none ds kNone f rest hp

/-- Witness for C1: a datagram with one NEW-LINK record then DONE yields
the non-zero interface-change flag. -/
theorem wait_success_nonzero_witness :
    WaitForChangeEvent [⟨[⟨16, RTM_NEWLINK, 0⟩, ⟨16, NLMSG_DONE, 0⟩], 32⟩] = .success kNicChanged
    ∧ kNicChanged ≠ kNone :=
  ⟨by decide, wait_success_nonzero [⟨[⟨16, RTM_NEWLINK, 0⟩, ⟨16, NLMSG_DONE, 0⟩], 32⟩]
    kNicChanged (by decide)⟩

/-- C2: dispatching an `NLMSG_ERROR` record fails the whole wait call with
the OS error code embedded in the record's payload: the walk's result
ignores every record after it and every flag accumulated before it
(both are universally quantified), and the wait loop turns the thrown
error into a failure result carrying no flags. -/
theorem error_record_fails_wait :
    (∀ (msg : NlMsg) (rest : List NlMsg) (len : Nat) (acc : NetworkChangeEvent),
        NLMSG_OK msg len → msg.nlmsg_type = NLMSG_ERROR →
        walkMsgs (msg :: rest) len acc = .err msg.errorCode)
    ∧ (∀ (d : Datagram) (rest : List Datagram) (acc : NetworkChangeEvent) (code : Int),
        walkMsgs d.msgs d.len acc = .err code →
        waitLoop (d :: rest) acc = (.failure code, rest)) := by
  constructor
  · intro msg rest len acc hok he
    have hd : msg.nlmsg_type ≠ NLMSG_DONE := by rw [he]; decide
    simp only [walkMsgs, if_pos hok, if_neg hd, if_pos he]
  · intro d rest acc code h
    simp only [waitLoop, h]

/-- Witness for C2: an ERROR record with embedded code 13 makes the walk
throw 13 and the wait call fail with 13. -/
theorem error_record_fails_wait_witness :
    walkMsgs [⟨20, NLMSG_ERROR, 13⟩] 20 kNone = .err 13
    ∧ waitLoop [⟨[⟨20, NLMSG_ERROR, 13⟩], 20⟩] kNone = (.failure 13, []) :=
  ⟨error_record_fails_wait.1 ⟨20, NLMSG_ERROR, 13⟩ [] 20 kNone (by decide) rfl,
   error_record_fails_wait.2 ⟨[⟨20, NLMSG_ERROR, 13⟩], 20⟩ [] kNone 13 (by decide)⟩

/-- C3: dispatching a well-formed, non-sentinel, non-error record OR-s into
the accumulator exactly the flag given by the spec's type-code table
(`specEventOfType`): NEW-LINK → interface flag, NEW-ADDR/DEL-ADDR →
address flag, NEW-ROUTE/DEL-ROUTE → route flag, any other type → no flag
and no error. -/
theorem record_type_flag_mapping :
    (∀ (msg : NlMsg) (rest : List NlMsg) (len : Nat) (acc : NetworkChangeEvent),
        NLMSG_OK msg len → msg.nlmsg_type ≠ NLMSG_DONE → msg.nlmsg_type ≠ NLMSG_ERROR →
        walkMsgs (msg :: rest) len acc =
          walkMsgs rest (nlmsgNextLen len msg.nlmsg_len)
            (evOr acc (specEventOfType msg.nlmsg_type)))
    ∧ specEventOfType RTM_NEWLINK = kNicChanged
    ∧ specEventOfType RTM_NEWADDR = kAddressChanged
    ∧ specEventOfType RTM_DELADDR = kAddressChanged
    ∧ specEventOfType RTM_NEWROUTE = kRouteChanged
    ∧ specEventOfType RTM_DELROUTE = kRouteChanged
    ∧ (∀ t : Nat, t ≠ RTM_NEWLINK → t ≠ RTM_NEWADDR → t ≠ RTM_DELADDR →
        t ≠ RTM_NEWROUTE → t ≠ RTM_DELROUTE → specEventOfType t = kNone) := by
  refine ⟨fun msg rest len acc hok hd he => walkMsgs_cons_step msg rest len acc hok hd he,
    by decide, by decide, by decide, by decide, by decide, ?_⟩
  intro t h1 h2 h3 h4 h5
  simp [specEventOfType, h1, h2, h3, h4, h5]

/-- Witness for C3: a NEW-ADDR record steps the walk by OR-ing the spec
table's flag, and an unrecognized type code 99 maps to no flag. -/
theorem record_type_flag_mapping_witness :
    walkMsgs [⟨16, RTM_NEWADDR, 0⟩] 16 kNone =
      walkMsgs [] (nlmsgNextLen 16 16) (evOr kNone (specEventOfType RTM_NEWADDR))
    ∧ specEventOfType 99 = kNone :=
  ⟨record_type_flag_mapping.1 ⟨16, RTM_NEWADDR, 0⟩ [] 16 kNone (by decide) (by decide) (by decide),
   record_type_flag_mapping.2.2.2.2.2.2 99 (by decide) (by decide) (by decide) (by decide)
     (by decide)⟩

/-- C4: a record whose declared length exceeds the remaining buffer length
fails the `NLMSG_OK` bounds check, so the walk stops without interpreting
it — for every type code and payload — and returns the flags already
accumulated from earlier records of the same datagram. -/
theorem oversized_record_stops_walk (msg : NlMsg) (rest : List NlMsg) (len : Nat)
    (acc : NetworkChangeEvent) (h : len < msg.nlmsg_len) :
    walkMsgs (msg :: rest) len acc = .ok acc := by
  have hok : ¬NLMSG_OK msg len := by
    intro hok
    obtain ⟨_, _, hle⟩ := hok
    omega
  simp only [walkMsgs, if_neg hok]

/-- Witness for C4: a record declaring 100 bytes in a 32-byte remainder is
skipped and the previously accumulated address flag survives. -/
theorem oversized_record_stops_walk_witness :
    32 < 100
    ∧ walkMsgs [⟨100, RTM_NEWLINK, 0⟩] 32 kAddressChanged = .ok kAddressChanged :=
  ⟨by decide, oversized_record_stops_walk ⟨100, RTM_NEWLINK, 0⟩ [] 32 kAddressChanged (by decide)⟩

/-- C5: dispatching an `NLMSG_DONE` sentinel record jumps out of the inner
walk at once: the result is the current accumulator, for every list of
records positioned after the sentinel in the same datagram. -/
theorem done_record_stops_walk (msg : NlMsg) (rest : List NlMsg) (len : Nat)
    (acc : NetworkChangeEvent) (hok : NLMSG_OK msg len) (hd : msg.nlmsg_type = NLMSG_DONE) :
    walkMsgs (msg :: rest) len acc = .ok acc := by
  simp only [walkMsgs, if_pos hok, if_pos hd]

/-- Witness for C5: a NEW-LINK record positioned after a DONE sentinel
contributes nothing. -/
theorem done_record_stops_walk_witness :
    walkMsgs [⟨16, NLMSG_DONE, 0⟩, ⟨16, RTM_NEWLINK, 0⟩] 32 kNone = .ok kNone :=
  done_record_stops_walk ⟨16, NLMSG_DONE, 0⟩ [⟨16, RTM_NEWLINK, 0⟩] 32 kNone (by decide) rfl

/-- C6: a normal walk's final accumulator is the bitwise-OR left fold of
the consumed records' flags, and such OR-folds are invariant under
permutation of the flag sequence. -/
theorem walk_accumulation_or_fold :
    (∀ (msgs : List NlMsg) (len : Nat) (acc r : NetworkChangeEvent),
        walkMsgs msgs len acc = .ok r →
        r = List.foldl evOr acc (consumedFlags msgs len))
    ∧ (∀ (a : NetworkChangeEvent) (l₁ l₂ : List NetworkChangeEvent),
        l₁.Perm l₂ → List.foldl evOr a l₁ = List.foldl evOr a l₂) :=
  ⟨walkMsgs_ok_foldl, fun a _ _ p => foldl_evOr_perm p a⟩

/-- Witness for C6: a NEW-LINK datagram's walk result equals the OR fold of
its consumed flags, and swapping two flags leaves the fold unchanged. -/
theorem walk_accumulation_or_fold_witness :
    kNicChanged = List.foldl evOr kNone (consumedFlags [⟨16, RTM_NEWLINK, 0⟩] 16)
    ∧ List.foldl evOr kNone [kNicChanged, kRouteChanged] =
        List.foldl evOr kNone [kRouteChanged, kNicChanged] :=
  ⟨walk_accumulation_or_fold.1 [⟨16, RTM_NEWLINK, 0⟩] 16 kNone kNicChanged (by decide),
   walk_accumulation_or_fold.2 kNone [kNicChanged, kRouteChanged] [kRouteChanged, kNicChanged]
     (List.Perm.swap kRouteChanged kNicChanged [])⟩

/-- C7: `to_string` renders `"None"` for the zero value; every non-zero
combination of the three named flags renders as the set flags' tokens
joined by single spaces in the canonical order NIC, IP, Route; in
particular the interface-plus-address combination renders as
`"NIC IP"`. -/
theorem render_canonical_order :
    to_string kNone = "None"
    ∧ (∀ a b c : Bool, (a = true ∨ b = true ∨ c = true) →
        to_string (evOr (evOr (if a then kNicChanged else kNone)
                              (if b then kAddressChanged else kNone))
                        (if c then kRouteChanged else kNone)) =
          String.intercalate " "
            ((if a then ["NIC"] else []) ++ (if b then ["IP"] else []) ++
             (if c then ["Route"] else [])))
    ∧ to_string (evOr kNicChanged kAddressChanged) = "NIC IP" := by
  refine ⟨by decide, ?_, by decide⟩
  decide

/-- Witness for C7: the interface-and-address combination renders as the
two tokens joined by one space. -/
theorem render_canonical_order_witness :
    to_string (evOr (evOr (if true then kNicChanged else kNone)
                          (if true then kAddressChanged else kNone))
                    (if false then kRouteChanged else kNone)) =
      String.intercalate " "
        ((if true then ["NIC"] else []) ++ (if true then ["IP"] else []) ++
         (if false then ["Route"] else [])) :=
  render_canonical_order.2.1 true true false (Or.inl rfl)

/-- C8: the overloaded `operator|` on Event Flags is commutative,
associative, idempotent, and has `kNone` as identity. -/
theorem combine_comm_assoc_idem_identity (a b c : NetworkChangeEvent) :
    evOr a b = evOr b a ∧ evOr (evOr a b) c = evOr a (evOr b c)
    ∧ evOr a a = a ∧ evOr a kNone = a :=
  ⟨Nat.or_comm a b, Nat.or_assoc a b c, Nat.or_self a, Nat.or_zero a⟩

/-- C9: a value that is not the zero value but contains none of the three
named flag bits renders as the empty string, not as `"None"`. -/
theorem render_unnamed_bits_empty (v : NetworkChangeEvent) (hne : v ≠ kNone)
    (h1 : evAnd v kNicChanged ≠ kNicChanged)
    (h2 : evAnd v kAddressChanged ≠ kAddressChanged)
    (h3 : evAnd v kRouteChanged ≠ kRouteChanged) :
    to_string v = "" := by
  simp only [to_string, if_neg hne, if_neg h1, if_neg h2, if_neg h3]

/-- Witness for C9: the value 8 (a bit outside the named flags) renders as
the empty string. -/
theorem render_unnamed_bits_empty_witness :
    to_string 8 = "" :=
  render_unnamed_bits_empty 8 (by decide) (by decide) (by decide) (by decide)

/-- C10: `WaitForChangeEvent` starts from a zero accumulator, so a call's
returned flags are exactly the OR fold of the flags classified from the
records it consumed; in particular, a second call on the datagrams left
after any first call is characterized by its own datagrams alone, with no
carry-over of the first call's flags. -/
theorem wait_flags_union_per_call :
    (∀ (ds : List Datagram) (f : NetworkChangeEvent),
        WaitForChangeEvent ds = .success f →
        f = List.foldl evOr kNone (waitFlags ds))
    ∧ (∀ (stream : List Datagram) (r₁ : WaitResult) (rest : List Datagram)
        (f₂ : NetworkChangeEvent),
        waitLoop stream kNone = (r₁, rest) →
        WaitForChangeEvent rest = .success f₂ →
        f₂ = List.foldl evOr kNone (waitFlags rest)) := by
  have main : ∀ (ds : List Datagram) (f : NetworkChangeEvent),
      WaitForChangeEvent ds = .success f →
      f = List.foldl evOr kNone (waitFlags ds) := by
    intro ds f h
    unfold WaitForChangeEvent at h
    cases hp : waitLoop ds kNone with
    | mk r rest =>
      rw [hp] at h
      dsimp only at h
      rw [h] at hp
      exact waitLoop_success_foldl ds f rest hp
  exact ⟨main, fun stream r₁ rest f₂ _ h₂ => main rest f₂ h₂⟩

/-- Witness for C10: a first call consuming a NEW-LINK datagram and a
second call consuming the remaining NEW-ROUTE datagram each return exactly
the OR fold of their own consumed flags. -/
theorem wait_flags_union_per_call_witness :
    kNicChanged = List.foldl evOr kNone (waitFlags [⟨[⟨16, RTM_NEWLINK, 0⟩], 16⟩])
    ∧ kRouteChanged = List.foldl evOr kNone (waitFlags [⟨[⟨16, RTM_NEWROUTE, 0⟩], 16⟩]) :=
  ⟨wait_flags_union_per_call.1 [⟨[⟨16, RTM_NEWLINK, 0⟩], 16⟩] kNicChanged (by decide),
   wait_flags_union_per_call.2 [⟨[⟨16, RTM_NEWLINK, 0⟩], 16⟩, ⟨[⟨16, RTM_NEWROUTE, 0⟩], 16⟩]
     (.success kNicChanged) [⟨[⟨16, RTM_NEWROUTE, 0⟩], 16⟩] kRouteChanged (by decide) (by decide)⟩

end Outline
